import Mathlib

/-!
Verification of the eye-animation engine (`eyes.py`).

The engine state and its operations are embedded shallowly: Python floats
become rationals (`ℚ`), the wall clock `time()` becomes an explicit `now`
parameter (one value per frame), and each call to `uniform(a, b)` becomes an
explicit parameter standing for the drawn value.  The render loop's three
state-updating phases (`update_eye_position`, `update_eye_state`,
`update_eyelids`) and the five public operations are translated line by line
from the source.
-/

set_option autoImplicit false

namespace Pixel

/-- Moods, from `class EyesMood(Enum)`. -/
inductive EyesMood : Type
  | NEUTRAL
  | ANGRY
  | TIRED
  | HAPPY
  | SAD
deriving DecidableEq, Repr

/-- Gaze-position targets, from `class EyesPosition(Enum)`. -/
inductive EyesPosition : Type
  | CENTER
  | TOP
  | LEFT
  | BOTTOM
  | RIGHT
  | TOP_LEFT
  | TOP_RIGHT
  | BOTTOM_LEFT
  | BOTTOM_RIGHT
deriving DecidableEq, Repr

/-- One eye's record, from `@dataclass class Eye`. -/
structure Eye : Type where
  x : ℚ
  y : ℚ
  w : ℚ
  h : ℚ
  x_next : ℚ
  y_next : ℚ
  w_next : ℚ
  h_next : ℚ
  eyelid_h_l : ℚ
  eyelid_h_r : ℚ
  eyelid_h_l_next : ℚ
  eyelid_h_r_next : ℚ
deriving DecidableEq, Repr

/-- The mutable state owned by the `Eyes` object (display handle omitted). -/
structure EyesState : Type where
  eye_l : Eye
  eye_r : Eye
  eyelid_happy_h : ℚ
  eyelid_happy_h_next : ℚ
  is_open : Bool
  is_idle : Bool
  mood : EyesMood
  idle_timer : ℚ
  blink_timer : ℚ
deriving DecidableEq, Repr

def screen_width : ℚ := 128

def screen_height : ℚ := 64

def default_eye_w : ℚ := 36

def default_eye_h : ℚ := 36

def default_eye_gap : ℚ := 10

/-- `Eyes.interpolate`: averaging interpolation. -/
def interpolate (current target : ℚ) : ℚ := (current + target) / 2

/-- `Eyes.get_max_x_limit`: reads the eyes' current widths. -/
def get_max_x_limit (s : EyesState) : ℚ :=
  screen_width - s.eye_l.w - default_eye_gap - s.eye_r.w

/-- `Eyes.get_max_y_limit`. -/
def get_max_y_limit (_s : EyesState) : ℚ :=
  screen_height - default_eye_h

/-- The `positions` dictionary of `Eyes.set_position`, as a function of the
computed limits. -/
def positionTarget (p : EyesPosition) (max_x max_y : ℚ) : ℚ × ℚ :=
  match p with
  | .CENTER => (max_x / 2, max_y / 2)
  | .TOP => (max_x / 2, 0)
  | .LEFT => (0, max_y / 2)
  | .BOTTOM => (max_x / 2, max_y)
  | .RIGHT => (max_x, max_y / 2)
  | .TOP_LEFT => (0, 0)
  | .TOP_RIGHT => (max_x, 0)
  | .BOTTOM_LEFT => (0, max_y)
  | .BOTTOM_RIGHT => (max_x, max_y)

/-- `Eyes.set_position`. -/
def set_position (p : EyesPosition) (s : EyesState) : EyesState :=
  let max_x := get_max_x_limit s
  let max_y := get_max_y_limit s
  let t := positionTarget p max_x max_y
  { s with eye_l := { s.eye_l with x_next := t.1, y_next := t.2 } }

/-- `Eyes.set_idle`. -/
def set_idle (value : Bool) (s : EyesState) : EyesState :=
  let s := { s with is_idle := value }
  if value = false then set_position EyesPosition.CENTER s else s

/-- `Eyes.set_mood`. -/
def set_mood (value : EyesMood) (s : EyesState) : EyesState :=
  { s with mood := value }

/-- `Eyes.open` (named `openEyes` because `open` is a Lean keyword). -/
def openEyes (s : EyesState) : EyesState :=
  { s with
    eye_l := { s.eye_l with h_next := default_eye_h }
    eye_r := { s.eye_r with h_next := default_eye_h }
    is_open := true }

/-- `Eyes.close`. -/
def close (s : EyesState) : EyesState :=
  set_position EyesPosition.CENTER
    { s with
      eye_l := { s.eye_l with h_next := 1 }
      eye_r := { s.eye_r with h_next := 1 }
      is_open := false }

/-- `Eyes.update_eye_position`, translated assignment by assignment. -/
def update_eye_position (s : EyesState) : EyesState :=
  -- size
  let l := { s.eye_l with
    w := interpolate s.eye_l.w s.eye_l.w_next
    h := interpolate s.eye_l.h s.eye_l.h_next }
  let r := { s.eye_r with
    w := interpolate s.eye_r.w s.eye_r.w_next
    h := interpolate s.eye_r.h s.eye_r.h_next }
  -- centering
  let l := { l with
    x := l.x + (default_eye_w - l.w) / 2
    y := l.y + (default_eye_h - l.h) / 2 }
  let r := { r with
    x := r.x + (default_eye_w - r.w) / 2
    y := r.y + (default_eye_h - r.h) / 2 }
  -- position
  let l := { l with
    x := interpolate l.x l.x_next
    y := interpolate l.y l.y_next }
  -- position of the right eye relative to the left eye
  let r := { r with
    x_next := l.x_next + l.w + default_eye_gap
    y_next := l.y_next }
  let r := { r with
    x := interpolate r.x r.x_next
    y := interpolate r.y r.y_next }
  { s with eye_l := l, eye_r := r }

/-- First check of `Eyes.update_eye_state`: reopen the eyes after blinking. -/
def reopenStep (s : EyesState) : EyesState :=
  if s.is_open = true then
    let s := if s.eye_l.h ≤ 1.1 then
        { s with eye_l := { s.eye_l with h_next := default_eye_h } }
      else s
    let s := if s.eye_r.h ≤ 1.1 then
        { s with eye_r := { s.eye_r with h_next := default_eye_h } }
      else s
    s
  else s

/-- Second check of `Eyes.update_eye_state`: blink.  `now` stands for
`time()`, `d` for the draw `uniform(3, 6)`. -/
def blinkStep (now d : ℚ) (s : EyesState) : EyesState :=
  if s.blink_timer ≤ now ∧ s.is_open = true then
    { s with
      eye_l := { s.eye_l with h_next := 1 }
      eye_r := { s.eye_r with h_next := 1 }
      blink_timer := now + d }
  else s

/-- Third check of `Eyes.update_eye_state`: idle movement.  `dx`, `dy` stand
for the draws `uniform(0, get_max_x_limit())` and `uniform(0,
get_max_y_limit())`, `dt` for `uniform(3, 6)`. -/
def idleStep (now dx dy dt : ℚ) (s : EyesState) : EyesState :=
  if s.is_idle = true ∧ s.is_open = true ∧ s.idle_timer ≤ now then
    { s with
      eye_l := { s.eye_l with x_next := dx, y_next := dy }
      idle_timer := now + dt }
  else s

/-- `Eyes.update_eye_state`: the three checks in source order. -/
def update_eye_state (now d dx dy dt : ℚ) (s : EyesState) : EyesState :=
  idleStep now dx dy dt (blinkStep now d (reopenStep s))

/-- `Eyes.update_eyelids`, translated assignment by assignment. -/
def update_eyelids (s : EyesState) : EyesState :=
  -- neutral
  let s := if s.mood = EyesMood.NEUTRAL ∨ s.mood = EyesMood.HAPPY then
      { s with
        eye_l := { s.eye_l with
          eyelid_h_l_next := s.eye_l.y
          eyelid_h_r_next := s.eye_l.y }
        eye_r := { s.eye_r with
          eyelid_h_l_next := s.eye_r.y
          eyelid_h_r_next := s.eye_r.y } }
    else s
  -- angry
  let s := if s.mood = EyesMood.ANGRY then
      { s with
        eye_l := { s.eye_l with
          eyelid_h_l_next := s.eye_l.y + s.eye_l.h / 4
          eyelid_h_r_next := s.eye_l.y + s.eye_l.h / 2 }
        eye_r := { s.eye_r with
          eyelid_h_l_next := s.eye_r.y + s.eye_r.h / 2
          eyelid_h_r_next := s.eye_r.y + s.eye_r.h / 4 } }
    else s
  -- sad
  let s := if s.mood = EyesMood.SAD then
      { s with
        eye_l := { s.eye_l with
          eyelid_h_l_next := s.eye_l.y + s.eye_l.h / 2
          eyelid_h_r_next := s.eye_l.y + s.eye_l.h / 4 }
        eye_r := { s.eye_r with
          eyelid_h_l_next := s.eye_r.y + s.eye_r.h / 4
          eyelid_h_r_next := s.eye_r.y + s.eye_r.h / 2 } }
    else s
  -- tired
  let s := if s.mood = EyesMood.TIRED then
      { s with
        eye_l := { s.eye_l with
          eyelid_h_l_next := s.eye_l.y + s.eye_l.h / 1.2
          eyelid_h_r_next := s.eye_l.y + s.eye_l.h / 1.4 }
        eye_r := { s.eye_r with
          eyelid_h_l_next := s.eye_r.y + s.eye_r.h / 1.4
          eyelid_h_r_next := s.eye_r.y + s.eye_r.h / 1.2 } }
    else s
  -- happy
  let s := { s with
    eyelid_happy_h_next := if s.mood = EyesMood.HAPPY then 3 else 1 }
  let s := { s with
    eyelid_happy_h := interpolate s.eyelid_happy_h s.eyelid_happy_h_next }
  { s with
    eye_l := { s.eye_l with
      eyelid_h_l := interpolate s.eye_l.eyelid_h_l s.eye_l.eyelid_h_l_next
      eyelid_h_r := interpolate s.eye_l.eyelid_h_r s.eye_l.eyelid_h_r_next }
    eye_r := { s.eye_r with
      eyelid_h_l := interpolate s.eye_r.eyelid_h_l s.eye_r.eyelid_h_l_next
      eyelid_h_r := interpolate s.eye_r.eyelid_h_r s.eye_r.eyelid_h_r_next } }

/-- The initial left-eye x of `Eyes.__init__`. -/
def init_eye_x : ℚ := (screen_width - (default_eye_w * 2 + default_eye_gap)) / 2

/-- The initial eye y of `Eyes.__init__`. -/
def init_eye_y : ℚ := (screen_height - default_eye_h) / 2

/-- The state built by `Eyes.__init__`. -/
def initState : EyesState :=
  { eye_l :=
      { x := init_eye_x
        y := init_eye_y
        w := default_eye_w
        h := 1
        x_next := init_eye_x
        y_next := init_eye_y
        w_next := default_eye_w
        h_next := 1
        eyelid_h_l := init_eye_y
        eyelid_h_r := init_eye_y
        eyelid_h_l_next := init_eye_y
        eyelid_h_r_next := init_eye_y }
    eye_r :=
      { x := init_eye_x + default_eye_w + default_eye_gap
        y := init_eye_y
        w := default_eye_w
        h := 1
        x_next := init_eye_x + default_eye_w + default_eye_gap
        y_next := init_eye_y
        w_next := default_eye_w
        h_next := 1
        eyelid_h_l := init_eye_y
        eyelid_h_r := init_eye_y
        eyelid_h_l_next := init_eye_y
        eyelid_h_r_next := init_eye_y }
    eyelid_happy_h := 1
    eyelid_happy_h_next := 1
    is_open := false
    is_idle := false
    mood := EyesMood.NEUTRAL
    idle_timer := 0
    blink_timer := 0 }

/-- States reachable from `initState` by public operations and by the frame
steps of the render loop (each of the loop's three phases is closed over
separately, so mid-frame states are reachable too); `now` and the random
draws are arbitrary. -/
inductive Reachable : EyesState → Prop
  | init : Reachable initState
  | step_open {s : EyesState} : Reachable s → Reachable (openEyes s)
  | step_close {s : EyesState} : Reachable s → Reachable (close s)
  | step_mood {s : EyesState} (m : EyesMood) : Reachable s → Reachable (set_mood m s)
  | step_pos {s : EyesState} (p : EyesPosition) : Reachable s → Reachable (set_position p s)
  | step_idle {s : EyesState} (v : Bool) : Reachable s → Reachable (set_idle v s)
  | step_position {s : EyesState} : Reachable s → Reachable (update_eye_position s)
  | step_state {s : EyesState} (now d dx dy dt : ℚ) :
      Reachable s → Reachable (update_eye_state now d dx dy dt s)
  | step_eyelids {s : EyesState} : Reachable s → Reachable (update_eyelids s)

/-! ### The inductive invariant -/

/-- Inductive invariant carried through every reachable state: the width
fields are frozen at the default, the height fields stay in `[1, 36]`, and
the happy-eyelid divisor stays in `[1, 3]`. -/
def Inv (s : EyesState) : Prop :=
  s.eye_l.w = default_eye_w ∧ s.eye_l.w_next = default_eye_w ∧
  s.eye_r.w = default_eye_w ∧ s.eye_r.w_next = default_eye_w ∧
  1 ≤ s.eye_l.h ∧ s.eye_l.h ≤ default_eye_h ∧
  1 ≤ s.eye_l.h_next ∧ s.eye_l.h_next ≤ default_eye_h ∧
  1 ≤ s.eye_r.h ∧ s.eye_r.h ≤ default_eye_h ∧
  1 ≤ s.eye_r.h_next ∧ s.eye_r.h_next ≤ default_eye_h ∧
  1 ≤ s.eyelid_happy_h ∧ s.eyelid_happy_h ≤ 3 ∧
  1 ≤ s.eyelid_happy_h_next ∧ s.eyelid_happy_h_next ≤ 3

lemma inv_initState : Inv initState := by
  unfold Inv initState default_eye_h default_eye_w init_eye_x init_eye_y
  norm_num

lemma inv_set_position (p : EyesPosition) {s : EyesState} (h : Inv s) :
    Inv (set_position p s) := by
  obtain ⟨el, er, hh, hhn, o, idl, m, it, bt⟩ := s
  obtain ⟨lx, ly, lw, lh, lxn, lyn, lwn, lhn, q1, q2, q3, q4⟩ := el
  obtain ⟨rx, ry, rw, rh, rxn, ryn, rwn, rhn, p1, p2, p3, p4⟩ := er
  unfold Inv at h ⊢
  dsimp only [set_position] at h ⊢
  exact h

lemma inv_set_mood (m : EyesMood) {s : EyesState} (h : Inv s) :
    Inv (set_mood m s) := by
  obtain ⟨el, er, hh, hhn, o, idl, mo, it, bt⟩ := s
  obtain ⟨lx, ly, lw, lh, lxn, lyn, lwn, lhn, q1, q2, q3, q4⟩ := el
  obtain ⟨rx, ry, rw, rh, rxn, ryn, rwn, rhn, p1, p2, p3, p4⟩ := er
  unfold Inv at h ⊢
  dsimp only [set_mood] at h ⊢
  exact h

lemma inv_set_idle (v : Bool) {s : EyesState} (h : Inv s) :
    Inv (set_idle v s) := by
  obtain ⟨el, er, hh, hhn, o, idl, m, it, bt⟩ := s
  obtain ⟨lx, ly, lw, lh, lxn, lyn, lwn, lhn, q1, q2, q3, q4⟩ := el
  obtain ⟨rx, ry, rw, rh, rxn, ryn, rwn, rhn, p1, p2, p3, p4⟩ := er
  unfold Inv at h ⊢
  dsimp only [set_idle, set_position] at h ⊢
  split_ifs <;> exact h

lemma inv_openEyes {s : EyesState} (h : Inv s) : Inv (openEyes s) := by
  obtain ⟨el, er, hh, hhn, o, idl, m, it, bt⟩ := s
  obtain ⟨lx, ly, lw, lh, lxn, lyn, lwn, lhn, q1, q2, q3, q4⟩ := el
  obtain ⟨rx, ry, rw, rh, rxn, ryn, rwn, rhn, p1, p2, p3, p4⟩ := er
  unfold Inv at h ⊢
  dsimp only [openEyes] at h ⊢
  obtain ⟨h1, h2, h3, h4, h5, h6, h7, h8, h9, h10, h11, h12, h13, h14, h15, h16⟩ := h
  refine ⟨h1, h2, h3, h4, h5, h6, ?_, ?_, h9, h10, ?_, ?_, h13, h14, h15, h16⟩ <;>
    norm_num [default_eye_h]

lemma inv_close {s : EyesState} (h : Inv s) : Inv (close s) := by
  obtain ⟨el, er, hh, hhn, o, idl, m, it, bt⟩ := s
  obtain ⟨lx, ly, lw, lh, lxn, lyn, lwn, lhn, q1, q2, q3, q4⟩ := el
  obtain ⟨rx, ry, rw, rh, rxn, ryn, rwn, rhn, p1, p2, p3, p4⟩ := er
  unfold Inv at h ⊢
  dsimp only [close, set_position] at h ⊢
  obtain ⟨h1, h2, h3, h4, h5, h6, h7, h8, h9, h10, h11, h12, h13, h14, h15, h16⟩ := h
  refine ⟨h1, h2, h3, h4, h5, h6, ?_, ?_, h9, h10, ?_, ?_, h13, h14, h15, h16⟩ <;>
    norm_num [default_eye_h]

lemma inv_update_eye_position {s : EyesState} (h : Inv s) :
    Inv (update_eye_position s) := by
  obtain ⟨el, er, hh, hhn, o, idl, m, it, bt⟩ := s
  obtain ⟨lx, ly, lw, lh, lxn, lyn, lwn, lhn, q1, q2, q3, q4⟩ := el
  obtain ⟨rx, ry, rw, rh, rxn, ryn, rwn, rhn, p1, p2, p3, p4⟩ := er
  unfold Inv at h ⊢
  dsimp only [update_eye_position, interpolate] at h ⊢
  obtain ⟨h1, h2, h3, h4, h5, h6, h7, h8, h9, h10, h11, h12, h13, h14, h15, h16⟩ := h
  simp only [default_eye_h] at *
  refine ⟨?_, h2, ?_, h4, ?_, ?_, h7, h8, ?_, ?_, h11, h12, h13, h14, h15, h16⟩ <;>
    linarith

lemma inv_reopenStep {s : EyesState} (h : Inv s) : Inv (reopenStep s) := by
  obtain ⟨el, er, hh, hhn, o, idl, m, it, bt⟩ := s
  obtain ⟨lx, ly, lw, lh, lxn, lyn, lwn, lhn, q1, q2, q3, q4⟩ := el
  obtain ⟨rx, ry, rw, rh, rxn, ryn, rwn, rhn, p1, p2, p3, p4⟩ := er
  unfold Inv at h ⊢
  dsimp only [reopenStep] at h ⊢
  obtain ⟨h1, h2, h3, h4, h5, h6, h7, h8, h9, h10, h11, h12, h13, h14, h15, h16⟩ := h
  split_ifs <;>
    refine ⟨h1, h2, h3, h4, h5, h6, ?_, ?_, h9, h10, ?_, ?_, h13, h14, h15, h16⟩ <;>
    first
      | assumption
      | norm_num [default_eye_h]

lemma inv_blinkStep (now d : ℚ) {s : EyesState} (h : Inv s) :
    Inv (blinkStep now d s) := by
  obtain ⟨el, er, hh, hhn, o, idl, m, it, bt⟩ := s
  obtain ⟨lx, ly, lw, lh, lxn, lyn, lwn, lhn, q1, q2, q3, q4⟩ := el
  obtain ⟨rx, ry, rw, rh, rxn, ryn, rwn, rhn, p1, p2, p3, p4⟩ := er
  unfold Inv at h ⊢
  dsimp only [blinkStep] at h ⊢
  obtain ⟨h1, h2, h3, h4, h5, h6, h7, h8, h9, h10, h11, h12, h13, h14, h15, h16⟩ := h
  split_ifs <;>
    refine ⟨h1, h2, h3, h4, h5, h6, ?_, ?_, h9, h10, ?_, ?_, h13, h14, h15, h16⟩ <;>
    first
      | assumption
      | norm_num [default_eye_h]

lemma inv_idleStep (now dx dy dt : ℚ) {s : EyesState} (h : Inv s) :
    Inv (idleStep now dx dy dt s) := by
  obtain ⟨el, er, hh, hhn, o, idl, m, it, bt⟩ := s
  obtain ⟨lx, ly, lw, lh, lxn, lyn, lwn, lhn, q1, q2, q3, q4⟩ := el
  obtain ⟨rx, ry, rw, rh, rxn, ryn, rwn, rhn, p1, p2, p3, p4⟩ := er
  unfold Inv at h ⊢
  dsimp only [idleStep] at h ⊢
  split_ifs <;> exact h

lemma inv_update_eye_state (now d dx dy dt : ℚ) {s : EyesState} (h : Inv s) :
    Inv (update_eye_state now d dx dy dt s) :=
  inv_idleStep now dx dy dt (inv_blinkStep now d (inv_reopenStep h))

set_option maxHeartbeats 1000000 in
lemma inv_update_eyelids {s : EyesState} (h : Inv s) :
    Inv (update_eyelids s) := by
  obtain ⟨el, er, hh, hhn, o, idl, m, it, bt⟩ := s
  obtain ⟨lx, ly, lw, lh, lxn, lyn, lwn, lhn, q1, q2, q3, q4⟩ := el
  obtain ⟨rx, ry, rw, rh, rxn, ryn, rwn, rhn, p1, p2, p3, p4⟩ := er
  unfold Inv at h
  dsimp only at h
  obtain ⟨h1, h2, h3, h4, h5, h6, h7, h8, h9, h10, h11, h12, h13, h14, h15, h16⟩ := h
  unfold Inv
  rcases m <;>
    simp +decide only [update_eyelids, interpolate, if_true, if_false] <;>
    and_intros <;>
    first
      | trivial
      | assumption
      | linarith

lemma reachable_inv {s : EyesState} (h : Reachable s) : Inv s := by
  induction h with
  | init => exact inv_initState
  | step_open _ ih => exact inv_openEyes ih
  | step_close _ ih => exact inv_close ih
  | step_mood m _ ih => exact inv_set_mood m ih
  | step_pos p _ ih => exact inv_set_position p ih
  | step_idle v _ ih => exact inv_set_idle v ih
  | step_position _ ih => exact inv_update_eye_position ih
  | step_state now d dx dy dt _ ih => exact inv_update_eye_state now d dx dy dt ih
  | step_eyelids _ ih => exact inv_update_eyelids ih

/-! ### Iterated easing -/

/-- `n` frames of the easing law `current ← interpolate current target`
applied to a scalar field with fixed target `t`. -/
def easeSeq (t c : ℚ) : ℕ → ℚ
  | 0 => c
  | n + 1 => interpolate (easeSeq t c n) t

lemma easeSeq_sub_target (t c : ℚ) (n : ℕ) :
    easeSeq t c (n + 1) - t = (easeSeq t c n - t) / 2 := by
  simp only [easeSeq, interpolate]
  ring

lemma abs_easeSeq_sub_target (t c : ℚ) (n : ℕ) :
    |easeSeq t c n - t| = |c - t| / 2 ^ n := by
  induction n with
  | zero => simp [easeSeq]
  | succ n ih =>
      rw [easeSeq_sub_target, abs_div, ih]
      rw [show |(2 : ℚ)| = 2 by norm_num]
      ring

lemma easeSeq_conv (t c : ℚ) {ε : ℚ} (hε : 0 < ε) :
    ∃ n : ℕ, |easeSeq t c n - t| < ε := by
  obtain ⟨n, hn⟩ := exists_nat_gt (|c - t| / ε)
  refine ⟨n, ?_⟩
  rw [abs_easeSeq_sub_target]
  have h2 : (n : ℚ) < 2 ^ n := by
    have := Nat.lt_two_pow n
    exact_mod_cast this
  have hpow : (0 : ℚ) < 2 ^ n := by positivity
  rw [div_lt_iff₀ hpow]
  have habs : |c - t| < ε * n := by
    have := (div_lt_iff₀ hε).mp hn
    linarith
  calc |c - t| < ε * n := habs
    _ ≤ ε * 2 ^ n := by
        apply mul_le_mul_of_nonneg_left (le_of_lt h2) (le_of_lt hε)

/-! ### The spec's four-stage description of the geometry advance -/

/-- Stage 1 of the spec's geometry advance: ease `w, h` for both eyes toward
`w_next, h_next`. -/
def specEaseSizes (s : EyesState) : EyesState :=
  { s with
    eye_l := { s.eye_l with
      w := interpolate s.eye_l.w s.eye_l.w_next
      h := interpolate s.eye_l.h s.eye_l.h_next }
    eye_r := { s.eye_r with
      w := interpolate s.eye_r.w s.eye_r.w_next
      h := interpolate s.eye_r.h s.eye_r.h_next } }

/-- Stage 2 of the spec's geometry advance: shift each eye's `x` by
`(default_w - w)/2` and `y` by `(default_h - h)/2`, using the just-eased
sizes. -/
def specRecenter (s : EyesState) : EyesState :=
  { s with
    eye_l := { s.eye_l with
      x := s.eye_l.x + (default_eye_w - s.eye_l.w) / 2
      y := s.eye_l.y + (default_eye_h - s.eye_l.h) / 2 }
    eye_r := { s.eye_r with
      x := s.eye_r.x + (default_eye_w - s.eye_r.w) / 2
      y := s.eye_r.y + (default_eye_h - s.eye_r.h) / 2 } }

/-- Stage 3 of the spec's geometry advance: ease the left eye's `x, y`
toward `x_next, y_next`. -/
def specEaseLeftPos (s : EyesState) : EyesState :=
  { s with
    eye_l := { s.eye_l with
      x := interpolate s.eye_l.x s.eye_l.x_next
      y := interpolate s.eye_l.y s.eye_l.y_next } }

/-- Stage 4 of the spec's geometry advance: recompute the right eye's
`x_next, y_next` from the left eye's current-frame target plus width and
gap, then ease the right eye's `x, y` toward them. -/
def specRetargetRight (s : EyesState) : EyesState :=
  let r := { s.eye_r with
    x_next := s.eye_l.x_next + s.eye_l.w + default_eye_gap
    y_next := s.eye_l.y_next }
  { s with eye_r := { r with
    x := interpolate r.x r.x_next
    y := interpolate r.y r.y_next } }

/-! ### Concrete states used as test inputs -/

/-- A state outside the reachable set whose current widths are 0 rather than
the default 36; it separates "uses the current width" from "uses the default
width". -/
def wideState : EyesState :=
  { initState with
    eye_l := { initState.eye_l with w := 0 }
    eye_r := { initState.eye_r with w := 0 } }

/-- An open state whose eyes are still at the closed height 1 and whose
blink timer is already due: both the reopen check and the blink check fire. -/
def blinkReadyState : EyesState :=
  { initState with is_open := true }

/-- The fixed geometry of the spec's mood-switch example (`y = 10`,
`h = 36` for the left eye), with mood ANGRY. -/
def angryGeoState : EyesState :=
  { initState with
    eye_l := { initState.eye_l with y := 10, h := 36 }
    mood := EyesMood.ANGRY }

/-! ### Commutation of the behavior checks -/

set_option maxHeartbeats 1000000 in
lemma idleStep_reopenStep_comm (now dx dy dt : ℚ) (s : EyesState) :
    idleStep now dx dy dt (reopenStep s) = reopenStep (idleStep now dx dy dt s) := by
  obtain ⟨el, er, hh, hhn, o, idl, m, it, bt⟩ := s
  obtain ⟨lx, ly, lw, lh, lxn, lyn, lwn, lhn, q1, q2, q3, q4⟩ := el
  obtain ⟨rx, ry, rw, rh, rxn, ryn, rwn, rhn, p1, p2, p3, p4⟩ := er
  cases o <;> cases idl <;>
    dsimp only [idleStep, reopenStep] <;>
    split_ifs <;>
    rfl

set_option maxHeartbeats 1000000 in
lemma idleStep_blinkStep_comm (now d dx dy dt : ℚ) (s : EyesState) :
    idleStep now dx dy dt (blinkStep now d s) = blinkStep now d (idleStep now dx dy dt s) := by
  obtain ⟨el, er, hh, hhn, o, idl, m, it, bt⟩ := s
  obtain ⟨lx, ly, lw, lh, lxn, lyn, lwn, lhn, q1, q2, q3, q4⟩ := el
  obtain ⟨rx, ry, rw, rh, rxn, ryn, rwn, rhn, p1, p2, p3, p4⟩ := er
  cases o <;> cases idl <;>
    dsimp only [idleStep, blinkStep] <;>
    split_ifs <;>
    rfl

set_option maxHeartbeats 1000000 in
lemma reopenStep_blinkStep_of_not_both (now d : ℚ) (s : EyesState)
    (h : ¬(s.is_open = true ∧ s.blink_timer ≤ now ∧
        (s.eye_l.h ≤ 1.1 ∨ s.eye_r.h ≤ 1.1))) :
    reopenStep (blinkStep now d s) = blinkStep now d (reopenStep s) := by
  obtain ⟨el, er, hh, hhn, o, idl, m, it, bt⟩ := s
  obtain ⟨lx, ly, lw, lh, lxn, lyn, lwn, lhn, q1, q2, q3, q4⟩ := el
  obtain ⟨rx, ry, rw, rh, rxn, ryn, rwn, rhn, p1, p2, p3, p4⟩ := er
  dsimp only at h
  cases o <;>
    dsimp only [reopenStep, blinkStep] <;>
    split_ifs <;>
    first
      | rfl
      | simp_all

/-! ### Claims -/

/-- C1: For every scalar field with a `_next` counterpart, one frame of
easing replaces `current` with `(current + target) / 2`; for any fixed
target, each application halves `|current - target|` (a strict decrease
whenever they differ), iterating converges to within any `ε > 0` in
finitely many frames, and the new current never overshoots: it always lies
between the old current and the target. -/
theorem C1_easing_halves_converges_no_overshoot (c t : ℚ) :
    interpolate c t = (c + t) / 2 ∧
    |interpolate c t - t| = |c - t| / 2 ∧
    (c ≠ t → |interpolate c t - t| < |c - t|) ∧
    (∀ ε : ℚ, 0 < ε → ∃ n : ℕ, |easeSeq t c n - t| < ε) ∧
    min c t ≤ interpolate c t ∧ interpolate c t ≤ max c t := by
  have hhalf : |interpolate c t - t| = |c - t| / 2 := by
    rw [show interpolate c t - t = (c - t) / 2 by unfold interpolate; ring,
      abs_div, show |(2 : ℚ)| = 2 by norm_num]
  refine ⟨rfl, hhalf, ?_, fun ε hε => easeSeq_conv t c hε, ?_, ?_⟩
  · intro hne
    have h0 : 0 < |c - t| := abs_pos.mpr (sub_ne_zero.mpr hne)
    rw [hhalf]
    linarith
  · rcases le_total c t with h | h
    · rw [min_eq_left h]
      unfold interpolate
      linarith
    · rw [min_eq_right h]
      unfold interpolate
      linarith
  · rcases le_total c t with h | h
    · rw [max_eq_right h]
      unfold interpolate
      linarith
    · rw [max_eq_left h]
      unfold interpolate
      linarith

theorem C1_easing_halves_converges_no_overshoot_witness :
    ((0 : ℚ) ≠ 1 ∧ |interpolate 0 1 - 1| < |(0 : ℚ) - 1|) ∧
    ((0 : ℚ) < 1 ∧ ∃ n : ℕ, |easeSeq 1 0 n - 1| < 1) :=
  ⟨⟨by norm_num,
    (C1_easing_halves_converges_no_overshoot 0 1).2.2.1 (by norm_num)⟩,
   ⟨by norm_num,
    (C1_easing_halves_converges_no_overshoot 0 1).2.2.2.1 1 (by norm_num)⟩⟩

/-- C7: each frame's geometry advance is, in this exact order: (1) ease `w`
and `h` of both eyes; (2) shift each eye's `x` by `(default_eye_w - w)/2`
and `y` by `(default_eye_h - h)/2` using the just-eased sizes; (3) ease the
left eye's `x, y`; (4) recompute the right eye's `x_next, y_next` from the
left eye's current-frame target plus width and gap, then ease the right
eye's `x, y` toward them. -/
theorem C7_geometry_advance_stage_order (s : EyesState) :
    update_eye_position s =
      specRetargetRight (specEaseLeftPos (specRecenter (specEaseSizes s))) := by
  obtain ⟨el, er, hh, hhn, o, idl, m, it, bt⟩ := s
  obtain ⟨lx, ly, lw, lh, lxn, lyn, lwn, lhn, q1, q2, q3, q4⟩ := el
  obtain ⟨rx, ry, rw, rh, rxn, ryn, rwn, rhn, p1, p2, p3, p4⟩ := er
  rfl

/-- C4: at the end of any frame's `update_eye_position`, starting from any
reachable state, the right eye's horizontal target exceeds the left eye's by
`default_eye_w + default_eye_gap = 46` and their vertical targets agree. -/
theorem C4_rigid_pair {s : EyesState} (h : Reachable s) :
    (update_eye_position s).eye_r.x_next - (update_eye_position s).eye_l.x_next
        = default_eye_w + default_eye_gap ∧
    default_eye_w + default_eye_gap = 46 ∧
    (update_eye_position s).eye_r.y_next = (update_eye_position s).eye_l.y_next := by
  obtain ⟨hw, hwn, -⟩ := reachable_inv h
  refine ⟨?_, by norm_num [default_eye_w, default_eye_gap], ?_⟩ <;>
    simp [update_eye_position, interpolate, hw, hwn]
  ring

theorem C4_rigid_pair_witness :
    (update_eye_position initState).eye_r.x_next -
        (update_eye_position initState).eye_l.x_next
        = default_eye_w + default_eye_gap ∧
    default_eye_w + default_eye_gap = 46 ∧
    (update_eye_position initState).eye_r.y_next =
      (update_eye_position initState).eye_l.y_next :=
  C4_rigid_pair Reachable.init

/-- C5: in every state reachable from the initial state by public operations
and frame updates, both eyes' current heights lie in `[1, default_eye_h]`,
with `default_eye_h = 36`. -/
theorem C5_height_bounds {s : EyesState} (h : Reachable s) :
    (1 ≤ s.eye_l.h ∧ s.eye_l.h ≤ default_eye_h) ∧
    (1 ≤ s.eye_r.h ∧ s.eye_r.h ≤ default_eye_h) ∧
    default_eye_h = 36 := by
  obtain ⟨-, -, -, -, h5, h6, -, -, h9, h10, -⟩ := reachable_inv h
  exact ⟨⟨h5, h6⟩, ⟨h9, h10⟩, rfl⟩

theorem C5_height_bounds_witness :
    (1 ≤ initState.eye_l.h ∧ initState.eye_l.h ≤ default_eye_h) ∧
    (1 ≤ initState.eye_r.h ∧ initState.eye_r.h ≤ default_eye_h) ∧
    default_eye_h = 36 :=
  C5_height_bounds Reachable.init

/-- C9: in every reachable state the happy-eyelid divisor lies in `[1, 3]`
(hence is nonzero, so the render-time quotient `h / eyelid_happy_h` is
well-defined), and each frame's `update_eyelids` retargets it to exactly 3
when the mood is HAPPY and exactly 1 otherwise. -/
theorem C9_happy_divisor_bounds {s : EyesState} (h : Reachable s) :
    (1 ≤ s.eyelid_happy_h ∧ s.eyelid_happy_h ≤ 3 ∧ s.eyelid_happy_h ≠ 0) ∧
    (update_eyelids s).eyelid_happy_h_next
        = (if s.mood = EyesMood.HAPPY then 3 else 1) := by
  obtain ⟨-, -, -, -, -, -, -, -, -, -, -, -, h13, h14, -⟩ := reachable_inv h
  refine ⟨⟨h13, h14, by intro h0; rw [h0] at h13; norm_num at h13⟩, ?_⟩
  obtain ⟨el, er, hh, hhn, o, idl, m, it, bt⟩ := s
  rcases m <;> simp +decide [update_eyelids]

theorem C9_happy_divisor_bounds_witness :
    (1 ≤ initState.eyelid_happy_h ∧ initState.eyelid_happy_h ≤ 3 ∧
      initState.eyelid_happy_h ≠ 0) ∧
    (update_eyelids initState).eyelid_happy_h_next
        = (if initState.mood = EyesMood.HAPPY then 3 else 1) :=
  C9_happy_divisor_bounds Reachable.init

/-- C10: in every reachable state both eyes' `w` and `w_next` equal
`default_eye_w = 36` (no operation ever writes another width target and
easing fixes the width), and consequently `get_max_x_limit` returns 46. -/
theorem C10_width_frozen {s : EyesState} (h : Reachable s) :
    s.eye_l.w = default_eye_w ∧ s.eye_l.w_next = default_eye_w ∧
    s.eye_r.w = default_eye_w ∧ s.eye_r.w_next = default_eye_w ∧
    default_eye_w = 36 ∧ get_max_x_limit s = 46 := by
  obtain ⟨h1, h2, h3, h4, -⟩ := reachable_inv h
  refine ⟨h1, h2, h3, h4, rfl, ?_⟩
  unfold get_max_x_limit
  rw [h1, h3]
  norm_num [screen_width, default_eye_gap, default_eye_w]

theorem C10_width_frozen_witness :
    initState.eye_l.w = default_eye_w ∧ initState.eye_l.w_next = default_eye_w ∧
    initState.eye_r.w = default_eye_w ∧ initState.eye_r.w_next = default_eye_w ∧
    default_eye_w = 36 ∧ get_max_x_limit initState = 46 :=
  C10_width_frozen Reachable.init

/-- C2 is false as stated: in a state where the reopen check and the blink
check both fire (eyes open, heights at the closed value 1, blink timer due),
evaluating blink before reopen leaves `h_next = 36` where the code's order
(reopen, then blink, then idle) leaves `h_next = 1`. -/
theorem C2_counterexample :
    idleStep 0 0 0 3 (reopenStep (blinkStep 0 3 blinkReadyState)) ≠
      update_eye_state 0 3 0 0 3 blinkReadyState := by
  intro hEq
  have h := congrArg (fun st => st.eye_l.h_next) hEq
  norm_num [update_eye_state, idleStep, blinkStep, reopenStep, blinkReadyState,
    initState, default_eye_h, init_eye_x, init_eye_y, screen_width,
    screen_height, default_eye_w, default_eye_gap] at h

/-- C2 (amended): the idle check commutes with both other checks, so the
three orders that evaluate the reopen check before the blink check always
produce the state the code's order produces; and whenever the reopen and
blink checks cannot both fire in the same frame, all six orders produce the
code's result. -/
theorem C2_order_independence_amended (s : EyesState) (now d dx dy dt : ℚ) :
    (blinkStep now d (idleStep now dx dy dt (reopenStep s))
        = update_eye_state now d dx dy dt s ∧
      blinkStep now d (reopenStep (idleStep now dx dy dt s))
        = update_eye_state now d dx dy dt s) ∧
    (¬(s.is_open = true ∧ s.blink_timer ≤ now ∧
        (s.eye_l.h ≤ 1.1 ∨ s.eye_r.h ≤ 1.1)) →
      idleStep now dx dy dt (reopenStep (blinkStep now d s))
          = update_eye_state now d dx dy dt s ∧
      reopenStep (idleStep now dx dy dt (blinkStep now d s))
          = update_eye_state now d dx dy dt s ∧
      reopenStep (blinkStep now d (idleStep now dx dy dt s))
          = update_eye_state now d dx dy dt s) := by
  constructor
  · constructor
    · unfold update_eye_state
      rw [idleStep_blinkStep_comm]
    · unfold update_eye_state
      rw [idleStep_blinkStep_comm, idleStep_reopenStep_comm]
  · intro hnb
    have hRB := reopenStep_blinkStep_of_not_both now d s hnb
    refine ⟨?_, ?_, ?_⟩
    · unfold update_eye_state
      exact congrArg (idleStep now dx dy dt) hRB
    · unfold update_eye_state
      rw [← idleStep_reopenStep_comm, hRB]
    · unfold update_eye_state
      rw [← idleStep_blinkStep_comm, ← idleStep_reopenStep_comm, hRB]

theorem C2_order_independence_amended_witness :
    (¬(initState.is_open = true ∧ initState.blink_timer ≤ 0 ∧
        (initState.eye_l.h ≤ 1.1 ∨ initState.eye_r.h ≤ 1.1))) ∧
    (idleStep 0 1 2 3 (reopenStep (blinkStep 0 3 initState))
        = update_eye_state 0 3 1 2 3 initState ∧
      reopenStep (idleStep 0 1 2 3 (blinkStep 0 3 initState))
        = update_eye_state 0 3 1 2 3 initState ∧
      reopenStep (blinkStep 0 3 (idleStep 0 1 2 3 initState))
        = update_eye_state 0 3 1 2 3 initState) :=
  ⟨by decide, (C2_order_independence_amended initState 0 3 1 2 3).2 (by decide)⟩

/-- C3 is false as stated: `set_position` computes `max_x` from the eyes'
current widths (`get_max_x_limit`), not from the defaults; in a state whose
widths are 0 the CENTER target is 59, not the default-width table value
`(positionTarget CENTER 46 28).1 = 23`. -/
theorem C3_counterexample :
    (set_position EyesPosition.CENTER wideState).eye_l.x_next ≠
      (positionTarget EyesPosition.CENTER 46 28).1 := by
  norm_num [set_position, wideState, initState, get_max_x_limit,
    get_max_y_limit, positionTarget, screen_width, screen_height,
    default_eye_w, default_eye_h, default_eye_gap, init_eye_x, init_eye_y]

/-- C3 (amended): `set_position` writes the left eye's `(x_next, y_next)` to
the table entry computed from `get_max_x_limit` (which reads the eyes'
current widths) and `get_max_y_limit`; whenever both current widths equal
the default — as in every reachable state — those limits are 46 and 28, so
the write matches the default-width table of the spec. -/
theorem C3_set_position_amended (s : EyesState) (p : EyesPosition)
    (hl : s.eye_l.w = default_eye_w) (hr : s.eye_r.w = default_eye_w) :
    ((set_position p s).eye_l.x_next, (set_position p s).eye_l.y_next)
        = positionTarget p 46 28 := by
  have hx : get_max_x_limit s = 46 := by
    unfold get_max_x_limit
    rw [hl, hr]
    norm_num [screen_width, default_eye_gap, default_eye_w]
  have hy : get_max_y_limit s = 28 := by
    norm_num [get_max_y_limit, screen_height, default_eye_h]
  simp [set_position, hx, hy]

theorem C3_set_position_amended_witness :
    ((set_position EyesPosition.CENTER initState).eye_l.x_next,
      (set_position EyesPosition.CENTER initState).eye_l.y_next)
        = positionTarget EyesPosition.CENTER 46 28 :=
  C3_set_position_amended initState EyesPosition.CENTER rfl rfl

/-- C6 is false as stated: with left-eye geometry `y = 10`, `h = 36` and
mood ANGRY, the left eye's left-cutoff target is `y + h/4 = 19`, not the
17.5 the claim asserts. -/
theorem C6_counterexample :
    (update_eyelids angryGeoState).eye_l.eyelid_h_l_next ≠ (17.5 : ℚ) := by
  simp +decide [update_eyelids, angryGeoState, initState, init_eye_x,
    init_eye_y, screen_width, screen_height, default_eye_w, default_eye_h,
    default_eye_gap]
  norm_num

/-- C6 (amended): with left-eye geometry `y = 10`, `h = 36`, the left eye's
`(left-cutoff, right-cutoff)` targets after `update_eyelids` are exactly
`(19, 28)` under ANGRY, `(28, 19)` under SAD, `(40, 10 + 36/1.4)` under
TIRED and `(10, 10)` under NEUTRAL and HAPPY; the right eye is mirrored,
computed from its own current `y` and `h`. -/
theorem C6_eyelid_targets_amended (s : EyesState)
    (hy : s.eye_l.y = 10) (hh : s.eye_l.h = 36) :
    (s.mood = EyesMood.ANGRY →
      (update_eyelids s).eye_l.eyelid_h_l_next = 19 ∧
      (update_eyelids s).eye_l.eyelid_h_r_next = 28) ∧
    (s.mood = EyesMood.SAD →
      (update_eyelids s).eye_l.eyelid_h_l_next = 28 ∧
      (update_eyelids s).eye_l.eyelid_h_r_next = 19) ∧
    (s.mood = EyesMood.TIRED →
      (update_eyelids s).eye_l.eyelid_h_l_next = 40 ∧
      (update_eyelids s).eye_l.eyelid_h_r_next = 10 + 36 / 1.4) ∧
    (s.mood = EyesMood.NEUTRAL ∨ s.mood = EyesMood.HAPPY →
      (update_eyelids s).eye_l.eyelid_h_l_next = 10 ∧
      (update_eyelids s).eye_l.eyelid_h_r_next = 10) ∧
    (s.mood = EyesMood.ANGRY →
      (update_eyelids s).eye_r.eyelid_h_l_next = s.eye_r.y + s.eye_r.h / 2 ∧
      (update_eyelids s).eye_r.eyelid_h_r_next = s.eye_r.y + s.eye_r.h / 4) ∧
    (s.mood = EyesMood.SAD →
      (update_eyelids s).eye_r.eyelid_h_l_next = s.eye_r.y + s.eye_r.h / 4 ∧
      (update_eyelids s).eye_r.eyelid_h_r_next = s.eye_r.y + s.eye_r.h / 2) ∧
    (s.mood = EyesMood.TIRED →
      (update_eyelids s).eye_r.eyelid_h_l_next = s.eye_r.y + s.eye_r.h / 1.4 ∧
      (update_eyelids s).eye_r.eyelid_h_r_next = s.eye_r.y + s.eye_r.h / 1.2) ∧
    (s.mood = EyesMood.NEUTRAL ∨ s.mood = EyesMood.HAPPY →
      (update_eyelids s).eye_r.eyelid_h_l_next = s.eye_r.y ∧
      (update_eyelids s).eye_r.eyelid_h_r_next = s.eye_r.y) := by
  obtain ⟨el, er, hap, hapn, o, idl, m, it, bt⟩ := s
  obtain ⟨lx, ly, lw, lh, lxn, lyn, lwn, lhn, q1, q2, q3, q4⟩ := el
  dsimp only at hy hh
  subst hy
  subst hh
  rcases m <;>
    simp +decide [update_eyelids] <;>
    norm_num

theorem C6_eyelid_targets_amended_witness :
    angryGeoState.mood = EyesMood.ANGRY ∧
    ((update_eyelids angryGeoState).eye_l.eyelid_h_l_next = 19 ∧
      (update_eyelids angryGeoState).eye_l.eyelid_h_r_next = 28) :=
  ⟨rfl, (C6_eyelid_targets_amended angryGeoState rfl rfl).1 rfl⟩

/-- C8 is false as stated: `close` targets the CENTER mapping computed from
the eyes' current widths, not from the defaults; in a state whose widths are
0 it writes x target 59, not the default-width CENTER value 23. -/
theorem C8_counterexample :
    (close wideState).eye_l.x_next ≠
      (positionTarget EyesPosition.CENTER 46 28).1 := by
  norm_num [close, set_position, wideState, initState, get_max_x_limit,
    get_max_y_limit, positionTarget, screen_width, screen_height,
    default_eye_w, default_eye_h, default_eye_gap, init_eye_x, init_eye_y]

/-- C8 (amended): `open()` sets both eyes' `h_next` to `default_eye_h` and
`is_open` to true, changing nothing else; `close()` sets both eyes' `h_next`
to 1, `is_open` to false, and the left eye's position target to the CENTER
mapping computed from the current widths — equal to `(23, 14)` whenever both
widths are the default, as in every reachable state — changing nothing
else. -/
theorem C8_open_close_amended (s : EyesState)
    (hl : s.eye_l.w = default_eye_w) (hr : s.eye_r.w = default_eye_w) :
    openEyes s = { s with
      eye_l := { s.eye_l with h_next := default_eye_h }
      eye_r := { s.eye_r with h_next := default_eye_h }
      is_open := true } ∧
    close s = { s with
      eye_l := { s.eye_l with h_next := 1, x_next := 23, y_next := 14 }
      eye_r := { s.eye_r with h_next := 1 }
      is_open := false } := by
  refine ⟨rfl, ?_⟩
  obtain ⟨el, er, hap, hapn, o, idl, m, it, bt⟩ := s
  obtain ⟨lx, ly, lw, lh, lxn, lyn, lwn, lhn, q1, q2, q3, q4⟩ := el
  obtain ⟨rx, ry, rw, rh, rxn, ryn, rwn, rhn, p1, p2, p3, p4⟩ := er
  dsimp only at hl hr
  subst hl
  subst hr
  simp [close, set_position, get_max_x_limit, get_max_y_limit, positionTarget,
    screen_width, screen_height, default_eye_w, default_eye_h, default_eye_gap,
    EyesState.mk.injEq, Eye.mk.injEq]
  norm_num

theorem C8_open_close_amended_witness :
    openEyes initState = { initState with
      eye_l := { initState.eye_l with h_next := default_eye_h }
      eye_r := { initState.eye_r with h_next := default_eye_h }
      is_open := true } ∧
    close initState = { initState with
      eye_l := { initState.eye_l with h_next := 1, x_next := 23, y_next := 14 }
      eye_r := { initState.eye_r with h_next := 1 }
      is_open := false } :=
  C8_open_close_amended initState rfl rfl

end Pixel
